import Mathlib

/-!
Verification of the real-time chat core of the Student_Managment_API
repository (client code in `src/WebSocketChat.js`).

The client component is shallowly embedded as a state machine: the React
state hooks (`senderId`, `receiverId`, `msg`, `log`) and refs (`ws`,
`lastSender`, `typingTimeout`) become fields of `ChatState`; each event
handler and operation of the source becomes a case of the step function
`chatStep`.  WebSocket ready states use the numeric codes of the browser
API (0 CONNECTING, 1 OPEN, 2 CLOSING, 3 CLOSED); `readyState === 1` in the
source is `readyState = 1` here.  Timers (`setTimeout`/`clearTimeout`) are
made explicit: the send-retry timer of `sendMsg` is a pending counter plus
a dedicated firing action, and the typing-debounce timer is additionally
given a timed semantics (`debounceFires`) over the list of call instants.
-/

/-- A window location, as read by the source from `window.location`
(`protocol`, `host`, `hostname`). -/
structure Location where
  protocol : String
  host : String
  hostname : String
deriving DecidableEq

/-- Source line 4: the deployed WebSocket base URL. -/
def DEPLOYED_WS_BASE_URL : String :=
  "wss://student-managment-api-ilmg.onrender.com/ws-demo/ws/chat/"

/-- Source lines 5-8: the local WebSocket base URL built from the window
location. -/
def LOCAL_WS_BASE_URL (loc : Location) : String :=
  (if loc.protocol = "https:" then "wss://" else "ws://") ++ loc.host ++
    "/ws-demo/ws/chat/"

/-- Source lines 10-13: deployed URL when served from the deployed host,
local URL otherwise. -/
def WS_BASE_URL (loc : Location) : String :=
  if loc.hostname = "student-managment-api-ilmg.onrender.com" then
    DEPLOYED_WS_BASE_URL
  else LOCAL_WS_BASE_URL loc

/-- One entry of the client-side log (`log` state, rendered in the UI).
`text` covers plain strings ("WebSocket connected", "WebSocket closed",
raw payloads, and the `" " ++ msg` string); `typingNotice s` is the
`<i>{s} is typing...</i>` element; `senderLabel l` is the `<b>{l}:</b>`
element. -/
inductive LogEntry where
  | text (s : String)
  | typingNotice (sender : String)
  | senderLabel (label : String)
deriving DecidableEq

/-- A wire event as serialized by the client.  `msg = none` means the
`msg` key is absent from the JSON object (the typing payload of lines
88-92 has no `msg` key); `msg = some s` means the key is present with
string value `s`. -/
structure WireEvent where
  sender_id : String
  receiver_id : String
  msg : Option String
  typing : Bool
deriving DecidableEq

/-- A WebSocket object as the client sees it: its target URL and its
ready state (0 CONNECTING, 1 OPEN, 2 CLOSING, 3 CLOSED). -/
structure Channel where
  url : String
  readyState : Nat
deriving DecidableEq

/-- The fields a parsed inbound JSON object may carry, with JavaScript
truthiness made explicit via `Option` (`none` = property absent, i.e.
`undefined`).  The handler of lines 38-53 only reads `typing`,
`sender_id` and `msg`. -/
structure EventObj where
  sender_id : Option String
  receiver_id : Option String
  msg : Option String
  typing : Option Bool
deriving DecidableEq

/-- Result of `JSON.parse` on an inbound payload.  `obj` covers every
JSON value on which property access succeeds (objects, arrays, and
non-null primitives, whose absent properties read as `undefined`);
`nullValue` is the JSON value `null`, on which property access throws a
TypeError; `failure` means `JSON.parse` itself throws. -/
inductive ParseResult where
  | obj (o : EventObj)
  | nullValue
  | failure
deriving DecidableEq

/-- An inbound message frame: the raw payload string (`event.data`)
together with its parse result. -/
structure Inbound where
  raw : String
  parsed : ParseResult
deriving DecidableEq

/-- The client state: React state hooks and refs of `WebSocketChat`,
plus explicit bookkeeping for the timers and for observables.
`wsState` is `ws.current`; `lastSender` is `lastSender.current`;
`sent` accumulates every payload passed to `ws.current.send` over the
whole run; `closedUrls` records each channel on which `close()` was
called; `typingPending` is the pending typing-debounce timer;
`sendRetryScheduled` counts pending `setTimeout(sendMsg, 300)` timers;
`retryFires` counts how many such retry timers have fired. -/
structure ChatState where
  senderId : String
  receiverId : String
  msg : String
  log : List LogEntry
  wsState : Option Channel
  lastSender : String
  sent : List WireEvent
  closedUrls : List String
  typingPending : Bool
  sendRetryScheduled : Nat
  retryFires : Nat
deriving DecidableEq

/-- The initial state of the component (source lines 16-21): empty
identities and draft, empty log, no socket, no pending timers. -/
def initChatState : ChatState :=
  { senderId := "", receiverId := "", msg := "", log := [], wsState := none,
    lastSender := "", sent := [], closedUrls := [], typingPending := false,
    sendRetryScheduled := 0, retryFires := 0 }

/-- Effect of `ws.current.close()` (and of the unmount/effect cleanup):
a no-op on a CLOSING or CLOSED socket, otherwise the socket moves to
CLOSING and the close is recorded. -/
def closeCurrent (st : ChatState) : ChatState :=
  match st.wsState with
  | none => st
  | some w =>
      if 2 ≤ w.readyState then st
      else { st with wsState := some { w with readyState := 2 },
                     closedUrls := st.closedUrls ++ [w.url] }

/-- The idempotence guard of `connectWS` (source lines 26-31):
`ws.current && ws.current.readyState === 1 && lastSender.current === senderId`. -/
def connOpenSame (st : ChatState) : Bool :=
  match st.wsState with
  | none => false
  | some w => w.readyState == 1 && st.lastSender == st.senderId

/-- Source lines 24-34, `connectWS`: no-op on empty `senderId`; no-op when
an OPEN socket for the same identity exists; otherwise close any existing
socket and open a fresh one at `WS_BASE_URL + senderId` (a fresh browser
WebSocket starts CONNECTING), recording the identity in `lastSender`. -/
def connectWS (loc : Location) (st : ChatState) : ChatState :=
  if st.senderId = "" then st
  else if connOpenSame st then st
  else
    let st1 := closeCurrent st
    { st1 with
        wsState := some { url := WS_BASE_URL loc ++ st.senderId, readyState := 0 },
        lastSender := st.senderId }

/-- The availability test of `sendMsg` (source line 61):
`ws.current && ws.current.readyState === 1`. -/
def wsIsOpen (st : ChatState) : Bool :=
  match st.wsState with
  | none => false
  | some w => w.readyState == 1

/-- Source lines 60-74, the body of `sendMsg`: if the socket is not open,
call `connectWS` and schedule `setTimeout(sendMsg, 300)`; otherwise send
`{sender_id, receiver_id, msg, typing: false}` and clear the draft. -/
def sendMsgStep (loc : Location) (st : ChatState) : ChatState :=
  if wsIsOpen st then
    { st with
        sent := st.sent ++ [{ sender_id := st.senderId,
                              receiver_id := st.receiverId,
                              msg := some st.msg, typing := false }],
        msg := "" }
  else
    let st1 := connectWS loc st
    { st1 with sendRetryScheduled := st1.sendRetryScheduled + 1 }

/-- JavaScript truthiness of an optional string property (`undefined`
and `""` are falsy). -/
def truthyStr : Option String → Bool
  | none => false
  | some s => s != ""

/-- JavaScript truthiness of an optional boolean property (`undefined`
and `false` are falsy). -/
def truthyBool : Option Bool → Bool
  | none => false
  | some b => b

/-- The guard of the typing-timer callback, negation of source lines
81-86: socket present and OPEN, and both identities truthy. -/
def typingGate (st : ChatState) : Bool :=
  wsIsOpen st && st.senderId != "" && st.receiverId != ""

/-- The typing payload of source lines 88-92:
`{sender_id, receiver_id, typing: true}` — no `msg` key. -/
def typingEvent (st : ChatState) : WireEvent :=
  { sender_id := st.senderId, receiver_id := st.receiverId,
    msg := none, typing := true }

/-- Source lines 80-94, the body of the typing-debounce timer callback:
return (no send) unless the gate holds, otherwise send the typing
payload. -/
def typingFireBody (st : ChatState) : ChatState :=
  if typingGate st then { st with sent := st.sent ++ [typingEvent st] }
  else st

/-- Source lines 38-53, the `onmessage` handler.  The `try` block parses
`event.data` and dispatches on the truthiness of `obj.typing`,
`obj.sender_id`, `obj.msg`; property access on a parsed `null` throws,
and any throw inside the `try` (including the `JSON.parse` failure
itself) reaches the `catch`, which appends the raw payload to the log. -/
def onmessageStep (st : ChatState) (inb : Inbound) : ChatState :=
  match inb.parsed with
  | .obj o =>
      if truthyBool o.typing && truthyStr o.sender_id then
        { st with log := st.log ++ [.typingNotice (o.sender_id.getD "")] }
      else if truthyStr o.msg && truthyStr o.sender_id then
        let label := if o.sender_id.getD "" = st.senderId then "You"
                     else o.sender_id.getD ""
        { st with log := st.log ++ [.senderLabel label,
                                    .text (" " ++ o.msg.getD "")] }
      else st
  | .nullValue => { st with log := st.log ++ [.text inb.raw] }
  | .failure => { st with log := st.log ++ [.text inb.raw] }

/-- The discrete events of the client: UI state updates (with the
`useEffect` of lines 98-105 folded into `setSender`), a direct
`connectWS` call, the socket's `onopen`/`onclose` handlers firing, an
inbound frame, a Send click, a pending send-retry timer firing, a
`notifyTyping()` call, and the typing-debounce timer firing. -/
inductive ChatAction where
  | setSender (id : String)
  | setReceiver (id : String)
  | setMsgInput (m : String)
  | connect
  | opened
  | closedEvt
  | message (inb : Inbound)
  | send
  | sendRetryFire
  | notifyTypingCall
  | typingFire
deriving DecidableEq

/-- One step of the client.  `setSender` with a changed identity runs the
effect cleanup (close the current socket, lines 101-103) and then
`connectWS` (line 99); with an unchanged identity the effect does not
re-run.  `opened`/`closedEvt` are the `onopen`/`onclose` handlers
(lines 35-37, 54-56).  `sendRetryFire` consumes one pending
`setTimeout(sendMsg, 300)` timer and re-runs the `sendMsg` body.
`notifyTypingCall` is `clearTimeout` + `setTimeout` (lines 79-80):
it supersedes any pending typing timer with a fresh one.  `typingFire`
runs the typing callback if a timer is pending. -/
def chatStep (loc : Location) (st : ChatState) : ChatAction → ChatState
  | .setSender id =>
      if id = st.senderId then { st with senderId := id }
      else connectWS loc (closeCurrent { st with senderId := id })
  | .setReceiver id => { st with receiverId := id }
  | .setMsgInput m => { st with msg := m }
  | .connect => connectWS loc st
  | .opened =>
      match st.wsState with
      | none => st
      | some w =>
          if w.readyState = 0 then
            { st with wsState := some { w with readyState := 1 },
                      log := st.log ++ [.text "WebSocket connected"] }
          else st
  | .closedEvt =>
      match st.wsState with
      | none => st
      | some w =>
          if w.readyState = 3 then st
          else
            { st with wsState := some { w with readyState := 3 },
                      log := st.log ++ [.text "WebSocket closed"] }
  | .message inb => onmessageStep st inb
  | .send => sendMsgStep loc st
  | .sendRetryFire =>
      if st.sendRetryScheduled = 0 then st
      else sendMsgStep loc { st with
             sendRetryScheduled := st.sendRetryScheduled - 1,
             retryFires := st.retryFires + 1 }
  | .notifyTypingCall => { st with typingPending := true }
  | .typingFire =>
      if st.typingPending then
        typingFireBody { st with typingPending := false }
      else st

/-- Run a list of actions from a state. -/
def run (loc : Location) (st : ChatState) : List ChatAction → ChatState
  | [] => st
  | a :: rest => run loc (chatStep loc st a) rest

/-- Idle delay of the typing debouncer, source line 94. -/
def typingDelay : Nat := 100

/-- Timed semantics of the debounce timer (source lines 79-94) on the
instants of a sequence of `notifyTyping()` calls, in ascending order:
each call cancels the pending timer and schedules a new one at
`t + delay`; a timer fires (its instant is listed) exactly when no
further call arrives before its deadline. -/
def debounceFires (delay : Nat) : List Nat → List Nat
  | [] => []
  | [t] => [t + delay]
  | t :: t2 :: rest =>
      if t2 < t + delay then debounceFires delay (t2 :: rest)
      else (t + delay) :: debounceFires delay (t2 :: rest)

/-- Last instant of a call sequence `t :: rest`. -/
def lastCall (t : Nat) : List Nat → Nat
  | [] => t
  | t2 :: rest => lastCall t2 rest

/-- Typing events put on the wire by a burst of `notifyTyping()` calls at
the given instants: each surviving timer runs the callback of lines
80-94, which sends the typing payload exactly when the gate holds. -/
def burstTypingEmissions (st : ChatState) (calls : List Nat) :
    List (Nat × WireEvent) :=
  if typingGate st then
    (debounceFires typingDelay calls).map (fun t => (t, typingEvent st))
  else []

/-- Modelled from the spec: the server-side Message Router (spec section
4.3) is not part of `src/`; only the client is.  Router state: the
Identity-to-channel registry of open channels (channels named by an
abstract handle), the events forwarded so far (paired with the handle
they were delivered to), and the errors surfaced on sender channels. -/
structure RouterState where
  registry : List (String × Nat)
  delivered : List (Nat × WireEvent)
  senderErrors : List (String × String)
deriving DecidableEq

/-- Modelled from the spec: registry lookup by receiver identity. -/
def lookupChannel : List (String × Nat) → String → Option Nat
  | [], _ => none
  | (id, ch) :: rest, r => if id = r then some ch else lookupChannel rest r

/-- Modelled from the spec (section 4.3, inbound Event handling): look up
`receiver_id` among open channels; if found, forward the event unmodified
to that channel; if not found, discard silently. -/
def routeEvent (rs : RouterState) (e : WireEvent) : RouterState :=
  match lookupChannel rs.registry e.receiver_id with
  | some ch => { rs with delivered := rs.delivered ++ [(ch, e)] }
  | none => rs

/-- A concrete window location (local development) used for witnesses. -/
def locDefault : Location :=
  { protocol := "http:", host := "localhost:3000", hostname := "localhost" }

/-- A concrete OPEN channel for identity `u`, used for witnesses. -/
def chOpen (u : String) : Channel :=
  { url := "ws://localhost:3000/ws-demo/ws/chat/" ++ u, readyState := 1 }

/-- A concrete state with an open channel for `"u1"` and receiver `"u2"`,
used for witnesses. -/
def stOpen : ChatState :=
  { initChatState with
    senderId := "u1", receiverId := "u2",
    wsState := some (chOpen "u1"), lastSender := "u1" }

/-- A concrete state with an open channel but no receiver identity and a
pending typing timer, used for witnesses. -/
def stNoRecv : ChatState :=
  { stOpen with receiverId := "", typingPending := true }

/-- A concrete open state with a pending typing timer, used for
witnesses. -/
def stPendingTyping : ChatState :=
  { stOpen with typingPending := true }

/-- A concrete open state with a non-empty draft, used for witnesses. -/
def stDraft : ChatState :=
  { stOpen with msg := "hi" }

/-- A parsed JSON value with every relevant property reading as
`undefined` (e.g. the payload `"42"`), used for witnesses. -/
def objNone : EventObj :=
  { sender_id := none, receiver_id := none, msg := none, typing := none }

/-- A concrete inbound frame that parses as JSON but is neither a Typing
Event nor a Message Event, used for witnesses. -/
def inbNum : Inbound :=
  { raw := "42", parsed := .obj objNone }

/-- Well-formedness of an emitted wire event, as the spec's section 6
demands: it populates exactly one of `msg` (key present) or
`typing: true`. -/
def eventWF (e : WireEvent) : Prop :=
  (e.msg ≠ none ∧ e.typing = false) ∨ (e.msg = none ∧ e.typing = true)

/-! ### Helper lemmas about the components the step function is built from -/

theorem closeCurrent_log (st : ChatState) : (closeCurrent st).log = st.log := by
  unfold closeCurrent
  split
  · rfl
  · split <;> rfl

theorem closeCurrent_sent (st : ChatState) : (closeCurrent st).sent = st.sent := by
  unfold closeCurrent
  split
  · rfl
  · split <;> rfl

theorem connectWS_log (loc : Location) (st : ChatState) :
    (connectWS loc st).log = st.log := by
  unfold connectWS
  split
  · rfl
  · split
    · rfl
    · simp [closeCurrent_log]

theorem connectWS_sent (loc : Location) (st : ChatState) :
    (connectWS loc st).sent = st.sent := by
  unfold connectWS
  split
  · rfl
  · split
    · rfl
    · simp [closeCurrent_sent]

theorem sendMsgStep_log (loc : Location) (st : ChatState) :
    (sendMsgStep loc st).log = st.log := by
  unfold sendMsgStep
  split
  · rfl
  · simp [connectWS_log]

theorem typingFireBody_log (st : ChatState) :
    (typingFireBody st).log = st.log := by
  unfold typingFireBody
  split <;> rfl

/-- C9: the client log is append-only — every action of the client (UI
updates, connect, the onopen/onmessage/onclose handlers, sends, timer
firings) extends the log at the end, leaving the existing prefix intact,
never removing or reordering an entry. -/
theorem log_append_only (loc : Location) (st : ChatState) (a : ChatAction) :
    ∃ t, (chatStep loc st a).log = st.log ++ t := by
  cases a with
  | setSender id =>
      exact ⟨[], by by_cases h : id = st.senderId <;>
        simp [chatStep, h, connectWS_log, closeCurrent_log]⟩
  | setReceiver id => exact ⟨[], by simp [chatStep]⟩
  | setMsgInput m => exact ⟨[], by simp [chatStep]⟩
  | connect => exact ⟨[], by simp [chatStep, connectWS_log]⟩
  | opened =>
      cases hw : st.wsState with
      | none => exact ⟨[], by simp [chatStep, hw]⟩
      | some w =>
          by_cases hr : w.readyState = 0
          · exact ⟨[LogEntry.text "WebSocket connected"],
              by simp [chatStep, hw, hr]⟩
          · exact ⟨[], by simp [chatStep, hw, hr]⟩
  | closedEvt =>
      cases hw : st.wsState with
      | none => exact ⟨[], by simp [chatStep, hw]⟩
      | some w =>
          by_cases hr : w.readyState = 3
          · exact ⟨[], by simp [chatStep, hw, hr]⟩
          · exact ⟨[LogEntry.text "WebSocket closed"],
              by simp [chatStep, hw, hr]⟩
  | message inb =>
      cases hp : inb.parsed with
      | obj o =>
          by_cases h1 : (truthyBool o.typing && truthyStr o.sender_id) = true
          · exact ⟨[.typingNotice (o.sender_id.getD "")],
              by simp [chatStep, onmessageStep, hp, h1]⟩
          · by_cases h2 : (truthyStr o.msg && truthyStr o.sender_id) = true
            · exact ⟨[.senderLabel (if o.sender_id.getD "" = st.senderId
                        then "You" else o.sender_id.getD ""),
                      .text (" " ++ o.msg.getD "")],
                by simp [chatStep, onmessageStep, hp, h1, h2]⟩
            · exact ⟨[], by simp [chatStep, onmessageStep, hp, h1, h2]⟩
      | nullValue => exact ⟨[.text inb.raw], by simp [chatStep, onmessageStep, hp]⟩
      | failure => exact ⟨[.text inb.raw], by simp [chatStep, onmessageStep, hp]⟩
  | send => exact ⟨[], by simp [chatStep, sendMsgStep_log]⟩
  | sendRetryFire =>
      exact ⟨[], by by_cases h : st.sendRetryScheduled = 0 <;>
        simp [chatStep, h, sendMsgStep_log]⟩
  | notifyTypingCall => exact ⟨[], by simp [chatStep]⟩
  | typingFire =>
      exact ⟨[], by by_cases h : st.typingPending = true <;>
        simp [chatStep, h, typingFireBody_log]⟩

/-- C8: an event whose `receiver_id` has no open channel registered at
the Message Router is silently discarded — the router state is unchanged:
nothing is delivered, nothing is queued, and no error is surfaced on the
sender's channel. -/
theorem router_no_route_silent_drop (rs : RouterState) (e : WireEvent)
    (h : lookupChannel rs.registry e.receiver_id = none) :
    routeEvent rs e = rs := by
  unfold routeEvent
  rw [h]

/-- Witness for C8: a registry holding only `"u2"` drops an event
addressed to `"u3"` unchanged. -/
theorem router_no_route_silent_drop_witness :
    routeEvent { registry := [("u2", 1)], delivered := [], senderErrors := [] }
        { sender_id := "u1", receiver_id := "u3", msg := some "hi",
          typing := false } =
      { registry := [("u2", 1)], delivered := [], senderErrors := [] } :=
  router_no_route_silent_drop _ _ (by decide)

/-- Every `WS_BASE_URL` ends in a slash, so appending an identity to it
places the identity as the final path segment of the connection target. -/
theorem ws_base_url_slash (loc : Location) :
    ∃ pre, WS_BASE_URL loc = pre ++ "/" := by
  unfold WS_BASE_URL DEPLOYED_WS_BASE_URL LOCAL_WS_BASE_URL
  split
  · exact ⟨"wss://student-managment-api-ilmg.onrender.com/ws-demo/ws/chat",
      by decide⟩
  · refine ⟨(if loc.protocol = "https:" then "wss://" else "ws://") ++
      loc.host ++ "/ws-demo/ws/chat", ?_⟩
    rw [String.append_assoc
      ((if loc.protocol = "https:" then "wss://" else "ws://") ++ loc.host)
      "/ws-demo/ws/chat" "/"]
    congr 1

/-- C3: invoking connect (`connectWS`, and `setIdentity` via the
`senderId` effect) again with the same identity while the channel for it
is OPEN is a no-op — the state is unchanged, so exactly one open channel
remains and no close or re-open of the existing channel occurs. -/
theorem connect_same_identity_noop (loc : Location) (st : ChatState)
    (w : Channel) (h1 : st.wsState = some w) (h2 : w.readyState = 1)
    (h3 : st.lastSender = st.senderId) :
    connectWS loc st = st ∧ chatStep loc st (.setSender st.senderId) = st := by
  have hc : connOpenSame st = true := by
    simp [connOpenSame, h1, h2, h3]
  constructor
  · unfold connectWS
    rw [hc]
    simp
  · have heq : chatStep loc st (.setSender st.senderId) =
        if st.senderId = st.senderId then { st with senderId := st.senderId }
        else connectWS loc (closeCurrent { st with senderId := st.senderId }) :=
      rfl
    rw [heq, if_pos rfl]

/-- Witness for C3: a concrete open state where a repeated connect with
the same identity changes nothing. -/
theorem connect_same_identity_noop_witness :
    connectWS locDefault stOpen = stOpen ∧
      chatStep locDefault stOpen (.setSender stOpen.senderId) = stOpen :=
  connect_same_identity_noop locDefault stOpen (chOpen "u1") rfl rfl rfl

/-- C4: changing the local identity from `a` to `b` (with the channel for
`a` open) closes that channel and opens exactly one new CONNECTING
channel whose target is `WS_BASE_URL ++ b` — `b` is the final path
segment, as the base URL ends in a slash — and records `b` as the active
identity. -/
theorem identity_change_reconnect (loc : Location) (st : ChatState)
    (w : Channel) (b : String) (h1 : st.wsState = some w)
    (h2 : w.readyState = 1) (h3 : ¬ b = st.senderId) (h4 : ¬ b = "") :
    (chatStep loc st (.setSender b)).closedUrls = st.closedUrls ++ [w.url] ∧
    (chatStep loc st (.setSender b)).lastSender = b ∧
    (chatStep loc st (.setSender b)).senderId = b ∧
    (chatStep loc st (.setSender b)).wsState =
      some { url := WS_BASE_URL loc ++ b, readyState := 0 } ∧
    ∃ pre, WS_BASE_URL loc = pre ++ "/" := by
  have hstep : chatStep loc st (.setSender b) =
      connectWS loc (closeCurrent { st with senderId := b }) := by
    simp [chatStep, h3]
  have hclose : closeCurrent { st with senderId := b } =
      { st with senderId := b,
                wsState := some { w with readyState := 2 },
                closedUrls := st.closedUrls ++ [w.url] } := by
    unfold closeCurrent
    simp [h1, h2]
  rw [hstep, hclose]
  refine ⟨?_, ?_, ?_, ?_, ws_base_url_slash loc⟩ <;>
    simp [connectWS, connOpenSame, closeCurrent, h4]

/-- Witness for C4: from the concrete open state for `"u1"`, switching to
identity `"u3"` closes the old channel and opens the new one. -/
theorem identity_change_reconnect_witness :
    (chatStep locDefault stOpen (.setSender "u3")).closedUrls =
        stOpen.closedUrls ++ [(chOpen "u1").url] ∧
    (chatStep locDefault stOpen (.setSender "u3")).lastSender = "u3" ∧
    (chatStep locDefault stOpen (.setSender "u3")).senderId = "u3" ∧
    (chatStep locDefault stOpen (.setSender "u3")).wsState =
      some { url := WS_BASE_URL locDefault ++ "u3", readyState := 0 } ∧
    ∃ pre, WS_BASE_URL locDefault = pre ++ "/" :=
  identity_change_reconnect locDefault stOpen (chOpen "u1") "u3" rfl rfl
    (by decide) (by decide)

/-- C5: an inbound payload on which `JSON.parse` throws (the spec's
"malformed (non-parseable)" case) is appended to the log as literal
opaque text by the `catch` of the `onmessage` handler; the handler is a
total function of the state, so no thrown failure escapes it, and
nothing but the log changes. -/
theorem malformed_payload_displayed (loc : Location) (st : ChatState)
    (inb : Inbound) (h : inb.parsed = .failure) :
    chatStep loc st (.message inb) =
      { st with log := st.log ++ [.text inb.raw] } := by
  simp [chatStep, onmessageStep, h]

/-- Witness for C5: a concrete non-parseable payload is logged verbatim. -/
theorem malformed_payload_displayed_witness :
    chatStep locDefault initChatState
        (.message { raw := "oops", parsed := .failure }) =
      { initChatState with log := initChatState.log ++ [.text "oops"] } :=
  malformed_payload_displayed locDefault initChatState
    { raw := "oops", parsed := .failure } rfl

/-- C7: when the typing-debounce timer fires with its guard failing — no
socket, socket not OPEN (for instance it closed after the timer was
set), or sender or receiver identity unset — nothing is sent and nothing
is logged; the callback is a harmless no-op (it is a total function, so
no exception is thrown), apart from the timer itself being consumed. -/
theorem typing_fire_noop (loc : Location) (st : ChatState)
    (h : typingGate st = false) :
    (chatStep loc st .typingFire).sent = st.sent ∧
    (chatStep loc st .typingFire).log = st.log ∧
    (chatStep loc st .typingFire).wsState = st.wsState := by
  have hbody : ∀ s : ChatState, typingGate s = false → typingFireBody s = s := by
    intro s hs
    unfold typingFireBody
    rw [hs]
    simp
  by_cases hp : st.typingPending = true
  · have hg : typingGate { st with typingPending := false } = false := h
    simp [chatStep, hp, hbody _ hg]
  · simp [chatStep, hp]

/-- Witness for C7: the timer firing in a state with an open channel but
no receiver identity sends nothing and logs nothing. -/
theorem typing_fire_noop_witness :
    (chatStep locDefault stNoRecv .typingFire).sent = stNoRecv.sent ∧
    (chatStep locDefault stNoRecv .typingFire).log = stNoRecv.log ∧
    (chatStep locDefault stNoRecv .typingFire).wsState = stNoRecv.wsState :=
  typing_fire_noop locDefault stNoRecv (by decide)

/-- Counterexample to C10 as stated: the inbound payload `"null"` parses
as JSON (to the value `null`) and is recognized as neither a Typing
Event nor a Message Event, yet the handler does not ignore it — property
access on `null` throws a TypeError inside the `try`, and the `catch`
appends the raw payload to the log as text. -/
theorem json_null_payload_appended :
    (chatStep locDefault initChatState
        (.message { raw := "null", parsed := .nullValue })).log =
      [LogEntry.text "null"] ∧
    initChatState.log = [] := by decide

/-- C10 amended: for every inbound payload parsing to a JSON value on
which property access succeeds (an object, array, or non-null primitive)
that is recognized as neither a Typing Event (`typing` truthy and
`sender_id` truthy) nor a Message Event (`msg` truthy and `sender_id`
truthy), the handler appends nothing and raises no error — the state is
unchanged; a payload parsing to JSON `null`, however, is appended to the
log as raw text via the catch, exactly like a non-parseable payload. -/
theorem unrecognized_json_ignored (loc : Location) (st : ChatState)
    (inb : Inbound) (o : EventObj) (h : inb.parsed = .obj o)
    (h1 : (truthyBool o.typing && truthyStr o.sender_id) = false)
    (h2 : (truthyStr o.msg && truthyStr o.sender_id) = false) :
    chatStep loc st (.message inb) = st ∧
    ∀ inb2 : Inbound, inb2.parsed = .nullValue →
      chatStep loc st (.message inb2) =
        { st with log := st.log ++ [.text inb2.raw] } := by
  constructor
  · simp [chatStep, onmessageStep, h, h1, h2]
  · intro inb2 h2n
    simp [chatStep, onmessageStep, h2n]

/-- Witness for the amended C10: the payload `"42"` (a JSON number: every
property read yields `undefined`) leaves the state untouched. -/
theorem unrecognized_json_ignored_witness :
    chatStep locDefault stOpen (.message inbNum) = stOpen :=
  (unrecognized_json_ignored locDefault stOpen inbNum objNone
    rfl (by decide) (by decide)).1

/-- The debounce-timer semantics on a burst: every call before the last
arrives within the delay, so each pending timer is superseded and only
the timer set by the final call survives and fires. -/
theorem debounceFires_burst (delay : Nat) :
    ∀ (t : Nat) (rest : List Nat),
      List.Chain' (fun a b => b < a + delay) (t :: rest) →
      debounceFires delay (t :: rest) = [lastCall t rest + delay]
  | _, [], _ => rfl
  | t, t2 :: rest, hchain => by
      rw [List.chain'_cons] at hchain
      have ih := debounceFires_burst delay t2 rest hchain.2
      simp [debounceFires, hchain.1, ih, lastCall]

/-- C2: for a burst of `N ≥ 1` `notifyTyping()` calls (instants
`t :: rest`), each occurring less than the idle delay (100) after the
previous, exactly one Typing Event is put on the wire, and it is emitted
exactly one idle delay after the last call of the burst — trailing-edge
debounce, not leading-edge, not fixed-rate.  (Hypothesis `hg`: the
channel is open and both identities are set, the operating conditions
the spec requires for the debouncer to emit.) -/
theorem typing_debounce_single_trailing (st : ChatState) (t : Nat)
    (rest : List Nat)
    (hchain : List.Chain' (fun a b => b < a + typingDelay) (t :: rest))
    (hg : typingGate st = true) :
    burstTypingEmissions st (t :: rest) =
      [(lastCall t rest + typingDelay, typingEvent st)] := by
  unfold burstTypingEmissions
  rw [hg]
  simp [debounceFires_burst typingDelay t rest hchain]

/-- Witness for C2: two calls 50 ms apart yield exactly one typing event,
at instant 150 = 50 + 100. -/
theorem typing_debounce_single_trailing_witness :
    burstTypingEmissions stOpen [0, 50] = [(150, typingEvent stOpen)] :=
  typing_debounce_single_trailing stOpen 0 [50]
    (by simp [List.chain'_cons, typingDelay]) (by decide)

theorem onmessageStep_sent (st : ChatState) (inb : Inbound) :
    (onmessageStep st inb).sent = st.sent := by
  unfold onmessageStep
  split
  · split
    · rfl
    · split <;> rfl
  · rfl
  · rfl

/-- Any event present after one step was either already sent or is one of
the two well-formed payloads the source can emit. -/
theorem chatStep_sent_wf (loc : Location) (st : ChatState) (a : ChatAction)
    (e : WireEvent) (he : e ∈ (chatStep loc st a).sent) :
    e ∈ st.sent ∨ eventWF e := by
  cases a with
  | setSender id =>
      left
      by_cases h : id = st.senderId
      · simpa [chatStep, h] using he
      · simpa [chatStep, h, connectWS_sent, closeCurrent_sent] using he
  | setReceiver id => left; simpa [chatStep] using he
  | setMsgInput m => left; simpa [chatStep] using he
  | connect => left; simpa [chatStep, connectWS_sent] using he
  | opened =>
      left
      cases hw : st.wsState with
      | none => simpa [chatStep, hw] using he
      | some w =>
          by_cases hr : w.readyState = 0 <;> simpa [chatStep, hw, hr] using he
  | closedEvt =>
      left
      cases hw : st.wsState with
      | none => simpa [chatStep, hw] using he
      | some w =>
          by_cases hr : w.readyState = 3 <;> simpa [chatStep, hw, hr] using he
  | message inb => left; simpa [chatStep, onmessageStep_sent] using he
  | send =>
      by_cases h : wsIsOpen st = true
      · have he2 : e ∈ st.sent ∨
            e = { sender_id := st.senderId, receiver_id := st.receiverId,
                  msg := some st.msg, typing := false } := by
          simpa [chatStep, sendMsgStep, h] using he
        rcases he2 with h1 | h1
        · exact Or.inl h1
        · exact Or.inr (Or.inl ⟨by rw [h1]; simp, by rw [h1]⟩)
      · left
        have h2 : wsIsOpen st = false := by simpa using h
        simpa [chatStep, sendMsgStep, h2, connectWS_sent] using he
  | sendRetryFire =>
      by_cases h0 : st.sendRetryScheduled = 0
      · left; simpa [chatStep, h0] using he
      · by_cases h : wsIsOpen st = true
        · have h' : wsIsOpen { st with
              sendRetryScheduled := st.sendRetryScheduled - 1,
              retryFires := st.retryFires + 1 } = true := h
          have he2 : e ∈ st.sent ∨
              e = { sender_id := st.senderId, receiver_id := st.receiverId,
                    msg := some st.msg, typing := false } := by
            simpa [chatStep, h0, sendMsgStep, h'] using he
          rcases he2 with h1 | h1
          · exact Or.inl h1
          · exact Or.inr (Or.inl ⟨by rw [h1]; simp, by rw [h1]⟩)
        · left
          have h2 : wsIsOpen { st with
              sendRetryScheduled := st.sendRetryScheduled - 1,
              retryFires := st.retryFires + 1 } = false := by simpa using h
          simpa [chatStep, h0, sendMsgStep, h2, connectWS_sent] using he
  | notifyTypingCall => left; simpa [chatStep] using he
  | typingFire =>
      by_cases hp : st.typingPending = true
      · by_cases hg : typingGate st = true
        · have hg' : typingGate { st with typingPending := false } = true := hg
          have he2 : e ∈ st.sent ∨
              e = typingEvent { st with typingPending := false } := by
            simpa [chatStep, hp, typingFireBody, hg'] using he
          rcases he2 with h1 | h1
          · exact Or.inl h1
          · exact Or.inr (Or.inr ⟨by rw [h1]; rfl, by rw [h1]; rfl⟩)
        · have hg' : typingGate { st with typingPending := false } = false := by
            simpa using hg
          left
          simpa [chatStep, hp, typingFireBody, hg'] using he
      · left; simpa [chatStep, hp] using he

/-- Well-formedness of all sent events is preserved along any run. -/
theorem run_sent_wf (loc : Location) :
    ∀ (acts : List ChatAction) (st : ChatState),
      (∀ e ∈ st.sent, eventWF e) →
      ∀ e ∈ (run loc st acts).sent, eventWF e
  | [], _, h => h
  | a :: rest, st, h => by
      intro e he
      exact run_sent_wf loc rest (chatStep loc st a)
        (fun e2 he2 => (chatStep_sent_wf loc st a e2 he2).elim (h e2) id) e he

/-- C6: every event the client puts on the wire populates exactly one of
`msg` or `typing: true` (invariant over every run from the initial
state); concretely, `sendMsg` with an open channel emits exactly
`sender_id = local identity, receiver_id = current receiver, msg =
current draft, typing: false` and clears the draft, and the typing
debouncer emits exactly `sender_id, receiver_id, typing: true` with no
`msg` key. -/
theorem wire_events_exactly_one :
    (∀ (loc : Location) (acts : List ChatAction) (e : WireEvent),
        e ∈ (run loc initChatState acts).sent → eventWF e) ∧
    (∀ (loc : Location) (st : ChatState), wsIsOpen st = true →
        chatStep loc st .send =
          { st with
              sent := st.sent ++ [{ sender_id := st.senderId,
                                    receiver_id := st.receiverId,
                                    msg := some st.msg, typing := false }],
              msg := "" }) ∧
    (∀ (loc : Location) (st : ChatState), st.typingPending = true →
        typingGate st = true →
        chatStep loc st .typingFire =
          { st with
              typingPending := false,
              sent := st.sent ++ [{ sender_id := st.senderId,
                                    receiver_id := st.receiverId,
                                    msg := none, typing := true }] }) := by
  refine ⟨?_, ?_, ?_⟩
  · intro loc acts e he
    refine run_sent_wf loc acts initChatState ?_ e he
    intro e2 he2
    simp [initChatState] at he2
  · intro loc st h
    simp [chatStep, sendMsgStep, h]
  · intro loc st hp hg
    have hg' : typingGate { st with typingPending := false } = true := hg
    simp [chatStep, hp, typingFireBody, hg', typingEvent]

/-- Witness for C6: the message event of a concrete run is well-formed,
and the two emitting steps evaluated at concrete open states yield
exactly the documented payloads. -/
theorem wire_events_exactly_one_witness :
    eventWF { sender_id := "u1", receiver_id := "u2", msg := some "hi",
              typing := false } ∧
    chatStep locDefault stDraft .send =
      { stDraft with
          sent := stDraft.sent ++ [{ sender_id := "u1", receiver_id := "u2",
                                     msg := some "hi", typing := false }],
          msg := "" } ∧
    chatStep locDefault stPendingTyping .typingFire =
      { stPendingTyping with
          typingPending := false,
          sent := stPendingTyping.sent ++
            [{ sender_id := "u1", receiver_id := "u2",
               msg := none, typing := true }] } := by
  refine ⟨?_, ?_, ?_⟩
  · exact wire_events_exactly_one.1 locDefault
      [.setSender "u1", .opened, .setReceiver "u2", .setMsgInput "hi", .send]
      { sender_id := "u1", receiver_id := "u2", msg := some "hi",
        typing := false }
      (by decide)
  · exact wire_events_exactly_one.2.1 locDefault stDraft (by decide)
  · exact wire_events_exactly_one.2.2 locDefault stPendingTyping
      (by decide) (by decide)

theorem closeCurrent_sendRetryScheduled (st : ChatState) :
    (closeCurrent st).sendRetryScheduled = st.sendRetryScheduled := by
  unfold closeCurrent
  split
  · rfl
  · split <;> rfl

theorem closeCurrent_retryFires (st : ChatState) :
    (closeCurrent st).retryFires = st.retryFires := by
  unfold closeCurrent
  split
  · rfl
  · split <;> rfl

theorem connectWS_sendRetryScheduled (loc : Location) (st : ChatState) :
    (connectWS loc st).sendRetryScheduled = st.sendRetryScheduled := by
  unfold connectWS
  split
  · rfl
  · split
    · rfl
    · simp [closeCurrent_sendRetryScheduled]

theorem connectWS_retryFires (loc : Location) (st : ChatState) :
    (connectWS loc st).retryFires = st.retryFires := by
  unfold connectWS
  split
  · rfl
  · split
    · rfl
    · simp [closeCurrent_retryFires]

/-- `connectWS` never yields an OPEN socket by itself: a fresh socket
starts CONNECTING, and the no-op branches keep the socket as it was. -/
theorem connectWS_not_open (loc : Location) (st : ChatState)
    (h : wsIsOpen st = false) : wsIsOpen (connectWS loc st) = false := by
  unfold connectWS
  split
  · exact h
  · split
    · exact h
    · simp [wsIsOpen]

/-- The `sendMsg` body on an unavailable channel: reconnect and schedule
one more retry; nothing is sent. -/
theorem sendMsgStep_unavailable (loc : Location) (s : ChatState)
    (h : wsIsOpen s = false) :
    sendMsgStep loc s =
      { connectWS loc s with
          sendRetryScheduled := (connectWS loc s).sendRetryScheduled + 1 } := by
  unfold sendMsgStep
  rw [h]
  simp

/-- A send-retry timer that fires while the channel is unavailable
re-runs `sendMsg`, which schedules yet another retry: the channel stays
unavailable, exactly one retry stays pending, and the count of fired
retries grows by one. -/
theorem retry_fire_unavailable (loc : Location) (st : ChatState)
    (h : wsIsOpen st = false) (hs : st.sendRetryScheduled = 1) :
    wsIsOpen (chatStep loc st .sendRetryFire) = false ∧
    (chatStep loc st .sendRetryFire).sendRetryScheduled = 1 ∧
    (chatStep loc st .sendRetryFire).retryFires = st.retryFires + 1 := by
  have h0 : ¬ st.sendRetryScheduled = 0 := by omega
  have h' : wsIsOpen { st with
      sendRetryScheduled := st.sendRetryScheduled - 1,
      retryFires := st.retryFires + 1 } = false := h
  have hstep : chatStep loc st .sendRetryFire =
      sendMsgStep loc { st with
        sendRetryScheduled := st.sendRetryScheduled - 1,
        retryFires := st.retryFires + 1 } := by
    simp [chatStep, h0]
  rw [hstep, sendMsgStep_unavailable loc _ h']
  refine ⟨?_, ?_, ?_⟩
  · exact connectWS_not_open loc _ h'
  · simp [connectWS_sendRetryScheduled, hs]
  · simp [connectWS_retryFires]

/-- Running a concatenation of action lists runs them in sequence. -/
theorem run_append (loc : Location) :
    ∀ (l1 l2 : List ChatAction) (st : ChatState),
      run loc st (l1 ++ l2) = run loc (run loc st l1) l2
  | [], _, _ => rfl
  | a :: rest, l2, st => by
      simp only [List.cons_append, run]
      exact run_append loc rest l2 (chatStep loc st a)

/-- While the channel stays unavailable with one retry pending, `n`
retry-timer firings produce `n` executed retries and leave one more
pending. -/
theorem retry_loop (loc : Location) :
    ∀ (n : Nat) (st : ChatState), wsIsOpen st = false →
      st.sendRetryScheduled = 1 →
      (run loc st (List.replicate n .sendRetryFire)).retryFires =
        st.retryFires + n ∧
      wsIsOpen (run loc st (List.replicate n .sendRetryFire)) = false ∧
      (run loc st (List.replicate n .sendRetryFire)).sendRetryScheduled = 1
  | 0, st, h, hs => ⟨rfl, h, hs⟩
  | n + 1, st, h, hs => by
      have hfire := retry_fire_unavailable loc st h hs
      have ih := retry_loop loc n (chatStep loc st .sendRetryFire)
        hfire.1 hfire.2.1
      rw [List.replicate_succ]
      simp only [run]
      refine ⟨?_, ih.2.1, ih.2.2⟩
      rw [ih.1, hfire.2.2]
      omega

/-- Counterexample to C1 as stated: in the concrete event sequence
`setSender "u1"; send; retry fires; retry fires`, the channel never
becomes open (it stays CONNECTING throughout, as witnessed on every
prefix of the run), yet two retries of the send occur — refuting "at
most one retry occurs in every sequence of events in which the channel
never becomes open".  Each firing retry found the channel unavailable
and scheduled a further retry instead of dropping the send. -/
theorem send_retry_not_single_cex :
    (run locDefault initChatState
        [.setSender "u1", .send, .sendRetryFire, .sendRetryFire]).retryFires
      = 2 ∧
    ((([] : List ChatAction) ::
      [ChatAction.setSender "u1"] ::
      [ChatAction.setSender "u1", .send] ::
      [ChatAction.setSender "u1", .send, .sendRetryFire] ::
      [[ChatAction.setSender "u1", .send, .sendRetryFire, .sendRetryFire]]).all
        fun tr => wsIsOpen (run locDefault initChatState tr) == false) = true := by
  decide

/-- C1 amended: when send is attempted while no channel is open, the
program attempts to establish a channel and schedules a retry of the
send after a fixed short delay; a retry that again finds the channel
unavailable re-runs the send body, establishing and scheduling yet
another retry — so in a sequence of events in which the channel never
becomes open, the retries recur without bound (after the initial send
and `n` retry firings, exactly `n` retries have occurred and one more is
always pending); the send is not dropped after a single retry. -/
theorem send_retry_unbounded (loc : Location) (n : Nat) :
    (run loc initChatState
        ([.setSender "u1", .send] ++ List.replicate n .sendRetryFire)).retryFires
      = n ∧
    wsIsOpen (run loc initChatState
        ([.setSender "u1", .send] ++ List.replicate n .sendRetryFire)) = false ∧
    (run loc initChatState
        ([.setSender "u1", .send] ++
          List.replicate n .sendRetryFire)).sendRetryScheduled = 1 := by
  have hrun : run loc initChatState
      ([.setSender "u1", .send] ++ List.replicate n .sendRetryFire) =
      run loc (run loc initChatState [.setSender "u1", .send])
        (List.replicate n .sendRetryFire) :=
    run_append loc [.setSender "u1", .send]
      (List.replicate n .sendRetryFire) initChatState
  have hbase1 : wsIsOpen (run loc initChatState [.setSender "u1", .send])
      = false := rfl
  have hbase2 : (run loc initChatState
      [.setSender "u1", .send]).sendRetryScheduled = 1 := rfl
  have hbase3 : (run loc initChatState [.setSender "u1", .send]).retryFires
      = 0 := rfl
  have h := retry_loop loc n (run loc initChatState [.setSender "u1", .send])
    hbase1 hbase2
  rw [hrun]
  exact ⟨by rw [h.1, hbase3]; omega, h.2.1, h.2.2⟩
